import Mathlib

/-
Verification development for the JetReconstructionBenchmarks fastjet timing
harness (fastjet-finder.cc, fastjet-inclusive.cc, fastjet-utils.cc).

The embedding models the harness control flow exactly as written in the C++
sources: event loading with the maxevents bound and the status == 1 particle
filter, the mutually-exclusive selection-flag check, algorithm resolution
from the --algorithm name or the --power value, the trial loop with its
per-trial event loop, the dump conditions, and the statistics stage
(accumulation, Bessel-corrected sigma, sentinel minimum, per-event
normalization).  Timing samples are external inputs, modelled as a function
from trial index to the elapsed microseconds of that trial; double-precision
values are idealized as rationals (reals where a square root occurs).
-/

namespace JetBench

/-- Jet algorithm enumeration mirroring the fastjet::JetAlgorithm values the
harness uses. -/
inductive JetAlgorithm where
  | antikt
  | cambridge_aachen
  | kt
  | genkt
  | ee_kt
  | ee_genkt
deriving DecidableEq

/-- Clustering strategy enumeration mirroring fastjet::Strategy values used. -/
inductive Strategy where
  | Best
  | N2Plain
  | N2Tiled
deriving DecidableEq

/-- One particle as decoded by the external HepMC3 reader: its status code and
four-momentum components. -/
structure HepParticle where
  status : Int
  px : ℚ
  py : ℚ
  pz : ℚ
  e : ℚ
deriving DecidableEq

/-- Four-momentum of a fastjet::PseudoJet built in read_input_events. -/
abbrev PseudoJet := ℚ × ℚ × ℚ × ℚ

/-- One event as decoded by the external source: all its particles. -/
abbrev RawEvent := List HepParticle

/-- One event as stored by the harness: the PseudoJets it built. -/
abbrev Event := List PseudoJet

/-- Momenta of all particles of a decoded event, unchanged (what a
no-filtering event loader would store). -/
def rawMomenta (evt : RawEvent) : Event :=
  evt.map (fun p => (p.px, p.py, p.pz, p.e))

/-- Body of the per-event loop of read_input_events (fastjet-utils.cc lines
50-59): keep exactly the particles with status == 1, in order, taking their
four-momentum components. -/
def toPseudoJets (evt : RawEvent) : Event :=
  (evt.filter (fun p => p.status == 1)).map (fun p => (p.px, p.py, p.pz, p.e))

/-- Result of read_input_events: the stored events, the events_parsed counter,
and the number of read_event calls issued to the external reader. -/
structure ReadResult where
  events : List Event
  parsed : ℕ
  reads : ℕ
deriving DecidableEq

/-- Reading loop of read_input_events (fastjet-utils.cc lines 36-61).  The
external source is modelled as the list of events it can still decode;
attempting to read past its end is the failing read that ends the loop.  The
maxevents bound (active when maxevents >= 0) is checked before each read,
matching the `if (maxevents >= 0 && events_parsed >= maxevents) break` guard
at the top of the while body. -/
def readAux (maxevents : Int) : ℕ → List RawEvent → ReadResult
  | parsed, [] =>
    if 0 ≤ maxevents ∧ maxevents ≤ (parsed : Int) then ⟨[], parsed, 0⟩
    else ⟨[], parsed, 1⟩
  | parsed, e :: rest =>
    if 0 ≤ maxevents ∧ maxevents ≤ (parsed : Int) then ⟨[], parsed, 0⟩
    else
      let r := readAux maxevents (parsed + 1) rest
      ⟨toPseudoJets e :: r.events, r.parsed, r.reads + 1⟩

/-- Embedding of read_input_events (fastjet-utils.cc): events_parsed starts
at 0. -/
def read_input_events (src : List RawEvent) (maxevents : Int) : ReadResult :=
  readAux maxevents 0 src

/-- Accumulation `time_total += us_elapsed` over the trial loop
(fastjet-finder.cc line 225, fastjet-inclusive.cc line 173). -/
def accumTotal (stats : List ℚ) : ℚ :=
  stats.foldl (fun a x => a + x) 0

/-- Accumulation `time_total2 += us_elapsed * us_elapsed` over the trial loop
(fastjet-finder.cc line 226, fastjet-inclusive.cc line 174). -/
def accumTotal2 (stats : List ℚ) : ℚ :=
  stats.foldl (fun a x => a + x * x) 0

/-- Initial value of time_lowest, the sentinel 1.0e20 (fastjet-finder.cc line
188). -/
def sentinel : ℚ := 10 ^ 20

/-- Accumulation `if (us_elapsed < time_lowest) time_lowest = us_elapsed`
over the trial loop (fastjet-finder.cc line 227). -/
def accumLowest (stats : List ℚ) : ℚ :=
  stats.foldl (fun a x => if x < a then x else a) sentinel

/-- Per-event mean: `time_total /= trials` then `time_total / events.size()`
(fastjet-finder.cc lines 229 and 236). -/
def meanPerEvent (stats : List ℚ) (trials : Int) (n : ℕ) : ℚ :=
  accumTotal stats / (trials : ℚ) / (n : ℚ)

/-- Per-event lowest time: `time_lowest /= events.size()` (fastjet-finder.cc
line 238). -/
def lowestPerEvent (stats : List ℚ) (n : ℕ) : ℚ :=
  accumLowest stats / (n : ℚ)

/-- Sigma of the per-trial totals (fastjet-finder.cc lines 231-235): when
trials > 1, `sqrt(trials/(trials-1) * (time_total2 - time_total*time_total))`
where time_total and time_total2 have already been divided by trials;
otherwise 0. -/
noncomputable def sigmaCode (stats : List ℚ) (trials : Int) : ℝ :=
  if 1 < trials then
    Real.sqrt ((trials : ℝ) / ((trials : ℝ) - 1) *
      (((accumTotal2 stats / (trials : ℚ) : ℚ) : ℝ) -
        ((accumTotal stats / (trials : ℚ) : ℚ) : ℝ) *
          ((accumTotal stats / (trials : ℚ) : ℚ) : ℝ)))
  else 0

/-- Per-event sigma: `sigma / events.size()` (fastjet-finder.cc line 237). -/
noncomputable def sigmaPerEvent (stats : List ℚ) (trials : Int) (n : ℕ) : ℝ :=
  sigmaCode stats trials / (n : ℝ)

/-- Parsed command-line state of fastjet-finder.cc main after popl parsing:
defaults from lines 77-85, option values from lines 88-100.  help records
whether `help_option->count() == 1`; the three selection options and the dump
option record whether they were set and with what value; nArgs is the number
of non-option arguments (candidate input files). -/
structure FinderOpts where
  help : Bool
  maxevents : Int
  skipevents : ℕ
  trials : Int
  strategy : String
  power : ℚ
  alg : String
  radius : ℚ
  ptminOpt : Option ℚ
  dijmaxOpt : Option ℚ
  njetsOpt : Option Int
  dumpOpt : Option String
  debugClusterseq : Bool
  nArgs : ℕ

/-- Selection-flag count of fastjet-finder.cc line 123:
`int(njets_option->is_set()) + int(dijmax_option->is_set()) +
int(ptmin_option->is_set())`. -/
def selectionCount (o : FinderOpts) : ℕ :=
  (if o.njetsOpt.isSome then 1 else 0) +
    (if o.dijmaxOpt.isSome then 1 else 0) +
      (if o.ptminOpt.isSome then 1 else 0)

/-- Strategy resolution (fastjet-finder.cc lines 135-140, identical in
fastjet-inclusive.cc lines 125-130). -/
def resolveStrategy (s : String) : Strategy :=
  if s = "N2Plain" then Strategy.N2Plain
  else if s = "N2Tiled" then Strategy.N2Tiled
  else Strategy.Best

/-- Algorithm resolution of fastjet-finder.cc lines 142-174: when an
--algorithm name is given it decides the algorithm (and overwrites power for
AntiKt, CA, Kt and Durham), with an unknown name being fatal (none); when no
name is given, the power value selects the algorithm.  Returns the resolved
algorithm and the possibly-updated power. -/
def finderResolveAlg (alg : String) (power : ℚ) : Option (JetAlgorithm × ℚ) :=
  if alg ≠ "" then
    if alg = "AntiKt" then some (JetAlgorithm.antikt, -1)
    else if alg = "CA" then some (JetAlgorithm.cambridge_aachen, 0)
    else if alg = "Kt" then some (JetAlgorithm.kt, 1)
    else if alg = "GenKt" then some (JetAlgorithm.genkt, power)
    else if alg = "Durham" then some (JetAlgorithm.ee_kt, 1)
    else if alg = "EEKt" then some (JetAlgorithm.ee_genkt, power)
    else none
  else
    if power = -1 then some (JetAlgorithm.antikt, power)
    else if power = 0 then some (JetAlgorithm.cambridge_aachen, power)
    else if power = 1 then some (JetAlgorithm.kt, power)
    else some (JetAlgorithm.genkt, power)

/-- Final per-event statistics printed by the statistics stage: mean
(fastjet-finder.cc line 236), sigma (line 237, real because of the square
root) and lowest (line 238), each already divided by the event count. -/
structure AggStats where
  mean : ℚ
  sigma : ℝ
  lowest : ℚ

/-- Observable trace of one harness process run: the exit code, how many
events were parsed from the source, which (trial, event) pairs were clustered
and which were forwarded to the jet dump and to the cluster-sequence history
dump, and the final per-event statistics (mean, sigma, lowest) when the run
reaches the statistics stage. -/
structure RunTrace where
  exitCode : Int
  eventsRead : ℕ
  clustered : List (ℕ × ℕ)
  dumped : List (ℕ × ℕ)
  historyDumped : List (ℕ × ℕ)
  stats : Option AggStats

/-- Event indices visited by the inner loop
`for (size_t ievt = skip_events; ievt < events.size(); ++ievt)`
(fastjet-finder.cc line 192). -/
def eventIndices (n skip : ℕ) : List ℕ :=
  (List.range n).drop skip

/-- Control flow of fastjet-finder.cc main.  In order: the help exit with
EXIT_SUCCESS (lines 104-110); the input-file argument resolution, which only
prints to stderr and never exits (lines 112-120); the selection-flag check
exiting with EXIT_FAILURE when the count is not 1 (lines 122-128); event
reading (line 132); algorithm resolution, exiting with code 1 on an unknown
name (lines 142-174); the trial loop clustering events from skipevents to the
end each trial, dumping jets (and, with debug-clusterseq, the history) only
when the dump option is set and trial == 0 (lines 185-228); and the
statistics stage (lines 229-242).  elapsed gives each trial's measured
microseconds, an external input. -/
noncomputable def finderMain (o : FinderOpts) (src : List RawEvent)
    (elapsed : ℕ → ℚ) : RunTrace :=
  if o.help then ⟨0, 0, [], [], [], none⟩
  else if selectionCount o ≠ 1 then ⟨1, 0, [], [], [], none⟩
  else
    let rr := read_input_events src o.maxevents
    match finderResolveAlg o.alg o.power with
    | none => ⟨1, rr.parsed, [], [], [], none⟩
    | some _ =>
      let n := rr.events.length
      let trialIdx := List.range o.trials.toNat
      let evIdx := eventIndices n o.skipevents
      let stats := trialIdx.map elapsed
      ⟨0, rr.parsed,
        trialIdx.flatMap (fun t => evIdx.map (fun i => (t, i))),
        trialIdx.flatMap (fun t =>
          if o.dumpOpt.isSome && t == 0 then evIdx.map (fun i => (t, i))
          else []),
        trialIdx.flatMap (fun t =>
          if o.dumpOpt.isSome && t == 0 && o.debugClusterseq then
            evIdx.map (fun i => (t, i))
          else []),
        some ⟨meanPerEvent stats o.trials n, sigmaPerEvent stats o.trials n,
          lowestPerEvent stats n⟩⟩

/-- Parsed command-line state of fastjet-inclusive.cc main after getopt
parsing: defaults from lines 47-57.  help records whether -h was given (its
case exits immediately); power is an int here; nArgs is argc - optind, the
number of remaining positional arguments. -/
structure InclusiveOpts where
  help : Bool
  maxevents : Int
  trials : Int
  strategy : String
  power : Int
  radius : ℚ
  ptmin : ℚ
  dumpFlag : Bool
  nArgs : ℕ

/-- Algorithm resolution of fastjet-inclusive.cc lines 132-137: power 0 gives
Cambridge/Aachen, power 1 gives kt, and every other power leaves the
antikt default in place. -/
def inclusiveResolveAlg (power : Int) : JetAlgorithm :=
  if power = 0 then JetAlgorithm.cambridge_aachen
  else if power = 1 then JetAlgorithm.kt
  else JetAlgorithm.antikt

/-- Control flow of fastjet-inclusive.cc main.  In order: the -h case calling
exit(-1) (lines 86-98); the missing-input-file exit with EXIT_FAILURE (lines
105-109); the extra-arguments exit with EXIT_FAILURE (lines 110-116); event
reading (line 122); and the trial loop (lines 148-176), which clusters every
event each trial and, when dumping is enabled, dumps on every trial (the
`if (dump)` at line 158 has no trial == 0 guard); then the statistics stage
(lines 177-190). -/
noncomputable def inclusiveMain (o : InclusiveOpts) (src : List RawEvent)
    (elapsed : ℕ → ℚ) : RunTrace :=
  if o.help then ⟨-1, 0, [], [], [], none⟩
  else if o.nArgs = 0 then ⟨1, 0, [], [], [], none⟩
  else if 1 < o.nArgs then ⟨1, 0, [], [], [], none⟩
  else
    let rr := read_input_events src o.maxevents
    let n := rr.events.length
    let trialIdx := List.range o.trials.toNat
    let evIdx := List.range n
    let stats := trialIdx.map elapsed
    ⟨0, rr.parsed,
      trialIdx.flatMap (fun t => evIdx.map (fun i => (t, i))),
      trialIdx.flatMap (fun t =>
        if o.dumpFlag then evIdx.map (fun i => (t, i)) else []),
      [],
      some ⟨meanPerEvent stats o.trials n, sigmaPerEvent stats o.trials n,
        lowestPerEvent stats n⟩⟩

/-- Error type of the statistics aggregation as the spec describes it. -/
inductive AggError where
  | emptyEventSet
deriving DecidableEq

/-- Modelled from the spec: the spec's StatsAggregator contract (section 4.5)
requires `aggregate` to fail with EmptyEventSetError when eventCount is 0
instead of dividing by zero; no such check exists in the source, whose
statistics stage divides unconditionally.  This definition follows the spec's
words, for comparison with the code's behavior. -/
def aggregateSpec (stats : List ℚ) (trials : Int) (n : ℕ) :
    Except AggError (ℚ × ℚ) :=
  if n = 0 then Except.error AggError.emptyEventSet
  else Except.ok (meanPerEvent stats trials n, lowestPerEvent stats n)

/-- Folding `s + f x` over a list equals the initial value plus the sum of
the mapped list. -/
theorem foldl_add_map (f : ℚ → ℚ) (l : List ℚ) (a : ℚ) :
    l.foldl (fun s x => s + f x) a = a + (l.map f).sum := by
  induction l generalizing a with
  | nil => simp
  | cons x xs ih => simp [ih]; ring

/-- Accumulated time_total equals the sum of the per-trial samples. -/
theorem accumTotal_eq_sum (l : List ℚ) : accumTotal l = l.sum := by
  have h := foldl_add_map (fun x => x) l 0
  simpa [accumTotal] using h

/-- Accumulated time_total2 equals the sum of the squared per-trial
samples. -/
theorem accumTotal2_eq (l : List ℚ) :
    accumTotal2 l = (l.map (fun x => x * x)).sum := by
  have h := foldl_add_map (fun x => x * x) l 0
  simpa [accumTotal2] using h

/-- Dropping s entries from range' a n leaves range' (a + s) (n - s). -/
theorem drop_range' (s a n : ℕ) :
    (List.range' a n).drop s = List.range' (a + s) (n - s) := by
  induction s generalizing a n with
  | zero => simp
  | succ k ih =>
    cases n with
    | zero => simp
    | succ m =>
      rw [List.range'_succ, List.drop_succ_cons, ih (a + 1) m]
      congr 1 <;> omega

/-- The inner event loop visits exactly the indices skip, skip+1, ...,
n-1, in this order. -/
theorem eventIndices_eq_range' (n s : ℕ) :
    eventIndices n s = List.range' s (n - s) := by
  rw [eventIndices, List.range_eq_range', drop_range']
  simp

/-- Trace of a finder run that passes the help, selection and algorithm
checks: events are read, every trial clusters the post-skip events, the dump
lists obey their conditions, and the statistics are computed from the
per-trial samples. -/
theorem finderMain_success (o : FinderOpts) (src : List RawEvent)
    (elapsed : ℕ → ℚ) (hh : o.help = false) (hs : selectionCount o = 1)
    (a : JetAlgorithm × ℚ) (ha : finderResolveAlg o.alg o.power = some a) :
    finderMain o src elapsed =
      ⟨0, (read_input_events src o.maxevents).parsed,
        (List.range o.trials.toNat).flatMap (fun t =>
          (eventIndices (read_input_events src o.maxevents).events.length
            o.skipevents).map (fun i => (t, i))),
        (List.range o.trials.toNat).flatMap (fun t =>
          if o.dumpOpt.isSome && t == 0 then
            (eventIndices (read_input_events src o.maxevents).events.length
              o.skipevents).map (fun i => (t, i))
          else []),
        (List.range o.trials.toNat).flatMap (fun t =>
          if o.dumpOpt.isSome && t == 0 && o.debugClusterseq then
            (eventIndices (read_input_events src o.maxevents).events.length
              o.skipevents).map (fun i => (t, i))
          else []),
        some ⟨meanPerEvent ((List.range o.trials.toNat).map elapsed) o.trials
                (read_input_events src o.maxevents).events.length,
              sigmaPerEvent ((List.range o.trials.toNat).map elapsed) o.trials
                (read_input_events src o.maxevents).events.length,
              lowestPerEvent ((List.range o.trials.toNat).map elapsed)
                (read_input_events src o.maxevents).events.length⟩⟩ := by
  simp [finderMain, hh, hs, ha]

/-- Particle with status 2 (not final-state), momentum (1, 2, 3, 4). -/
def pUnstable : HepParticle := ⟨2, 1, 2, 3, 4⟩

/-- Particle with status 1 (final-state), momentum (1, 0, 0, 1). -/
def pStable : HepParticle := ⟨1, 1, 0, 0, 1⟩

/-- Unbounded reading consumes the whole source: every decoded event is
stored (as its stable particles), events_parsed ends at the source length,
and one read per event plus the final failing read is issued. -/
theorem readAux_unbounded (maxevents : Int) (hm : maxevents < 0)
    (src : List RawEvent) (p : ℕ) :
    readAux maxevents p src =
      ⟨src.map toPseudoJets, p + src.length, src.length + 1⟩ := by
  induction src generalizing p with
  | nil =>
    simp only [readAux]
    rw [if_neg]
    · simp
    · intro h
      omega
  | cons e rest ih =>
    simp only [readAux]
    rw [if_neg]
    · simp [ih (p + 1)]
      omega
    · intro h
      omega

/-- C10: with maxevents = 0 the event loader returns an empty event sequence,
reports zero events parsed, and issues no read to the external source: the
bound check (events_parsed >= maxevents when maxevents >= 0) runs before each
read, including the first. -/
theorem C10_maxevents_zero_reads_nothing (src : List RawEvent) :
    read_input_events src 0 = ⟨[], 0, 0⟩ := by
  cases src <;> simp [read_input_events, readAux]

/-- C7 counterexample: the source decodes one event holding one particle with
status 2; read_input_events stores that event with the particle removed, so
the loader itself filters particles rather than returning the decoded event
unchanged. -/
theorem C7_counterexample :
    (read_input_events [[pUnstable]] (-1)).events = [[]] ∧
    [[pUnstable]].map rawMomenta = [[((1 : ℚ), (2 : ℚ), (3 : ℚ), (4 : ℚ))]] ∧
    (read_input_events [[pUnstable]] (-1)).events ≠
      [[pUnstable]].map rawMomenta := by
  refine ⟨?_, ?_, ?_⟩ <;>
    simp [read_input_events, readAux, toPseudoJets, pUnstable, rawMomenta]

/-- Bounded reading with a non-negative maxevents consumes the prefix of the
source the remaining allowance permits: taken events are stored (as their
stable particles), events_parsed advances by the number taken, and one read
is issued per taken event plus the final failing read when the source runs
out before the bound. -/
theorem readAux_bounded (maxevents : Int) (hm : 0 ≤ maxevents)
    (src : List RawEvent) (p : ℕ) :
    readAux maxevents p src =
      ⟨(src.take (maxevents.toNat - p)).map toPseudoJets,
        p + min (maxevents.toNat - p) src.length,
        if src.length < maxevents.toNat - p then src.length + 1
        else maxevents.toNat - p⟩ := by
  induction src generalizing p with
  | nil =>
    by_cases h : maxevents ≤ (p : Int)
    · simp only [readAux]
      rw [if_pos ⟨hm, h⟩]
      have hk : maxevents.toNat - p = 0 := by omega
      simp [hk]
    · simp only [readAux]
      rw [if_neg (fun hc => h hc.2)]
      have hk : 0 < maxevents.toNat - p := by omega
      simp [hk]
  | cons e rest ih =>
    by_cases h : maxevents ≤ (p : Int)
    · simp only [readAux]
      rw [if_pos ⟨hm, h⟩]
      have hk : maxevents.toNat - p = 0 := by omega
      simp [hk]
    · simp only [readAux]
      rw [if_neg (fun hc => h hc.2), ih (p + 1)]
      have hk1 : maxevents.toNat - p = (maxevents.toNat - (p + 1)) + 1 := by
        omega
      rw [hk1, List.take_succ_cons]
      simp only [ReadResult.mk.injEq, List.map_cons, List.length_cons]
      refine ⟨?_, by omega, ?_⟩
      · trivial
      · split_ifs <;> omega

/-- C7 amended: for every maxEvents bound the loader keeps the decoded
events, in order — all of them when the bound is negative (unbounded), the
first maxevents of them otherwise — but itself reduces each kept event to its
status == 1 particles (order preserved) while building PseudoJets; the
events-parsed count equals the number of events kept. -/
theorem C7_loader_keeps_events_filters_particles (src : List RawEvent)
    (maxevents : Int) :
    (read_input_events src maxevents).events =
      (if 0 ≤ maxevents then src.take maxevents.toNat else src).map
        toPseudoJets ∧
    (read_input_events src maxevents).parsed =
      (if 0 ≤ maxevents then src.take maxevents.toNat else src).length := by
  by_cases hm : 0 ≤ maxevents
  · rw [read_input_events, readAux_bounded maxevents hm src 0]
    simp [hm, List.length_take]
  · rw [read_input_events, readAux_unbounded maxevents (by omega) src 0]
    simp [hm]

/-- C8 counterexample: in the inclusive variant a power value of 2 (neither
-1, 0 nor 1) selects the anti-kt algorithm, not generalized kt. -/
theorem C8_counterexample :
    inclusiveResolveAlg 2 = JetAlgorithm.antikt ∧
    JetAlgorithm.antikt ≠ JetAlgorithm.genkt := by
  refine ⟨?_, by decide⟩
  norm_num [inclusiveResolveAlg]

/-- C8 amended: with no --algorithm name, the finder maps power -1 to AntiKt,
0 to CambridgeAachen, 1 to Kt and every other power to GenKt; the inclusive
variant maps 0 to CambridgeAachen, 1 to Kt and every other power (its default
-1 included) to AntiKt. -/
theorem C8_power_to_algorithm (p : ℚ) (q : Int) :
    finderResolveAlg "" (-1) = some (JetAlgorithm.antikt, -1) ∧
    finderResolveAlg "" 0 = some (JetAlgorithm.cambridge_aachen, 0) ∧
    finderResolveAlg "" 1 = some (JetAlgorithm.kt, 1) ∧
    (p ≠ -1 → p ≠ 0 → p ≠ 1 →
      finderResolveAlg "" p = some (JetAlgorithm.genkt, p)) ∧
    inclusiveResolveAlg 0 = JetAlgorithm.cambridge_aachen ∧
    inclusiveResolveAlg 1 = JetAlgorithm.kt ∧
    (q ≠ 0 → q ≠ 1 → inclusiveResolveAlg q = JetAlgorithm.antikt) := by
  refine ⟨by norm_num [finderResolveAlg], by norm_num [finderResolveAlg],
    by norm_num [finderResolveAlg], ?_, by norm_num [inclusiveResolveAlg],
    by norm_num [inclusiveResolveAlg], ?_⟩
  · intro h1 h2 h3
    simp [finderResolveAlg, h1, h2, h3]
  · intro h1 h2
    simp [inclusiveResolveAlg, h1, h2]

/-- C8 witness: the generic cases of the amended theorem at power 5. -/
theorem C8_witness :
    finderResolveAlg "" 5 = some (JetAlgorithm.genkt, 5) ∧
    inclusiveResolveAlg 5 = JetAlgorithm.antikt :=
  ⟨(C8_power_to_algorithm 5 5).2.2.2.1 (by norm_num) (by norm_num)
      (by norm_num),
    (C8_power_to_algorithm 5 5).2.2.2.2.2.2 (by norm_num) (by norm_num)⟩

/-- C1: for trials >= 1 samples and eventCount >= 1, the mean is the sum of
the per-trial elapsed times divided by trials then by the event count; with
trials = 1 the reported sigma is exactly 0; with trials > 1 it is the
Bessel-corrected sqrt(trials/(trials-1) * (E[x^2] - E[x]^2)) over the raw
per-trial totals, divided by the event count. -/
theorem C1_aggregate_formulas (stats : List ℚ) (trials : Int) (n : ℕ)
    (hlen : (stats.length : Int) = trials) (htr : 1 ≤ trials) (hn : 1 ≤ n) :
    meanPerEvent stats trials n = stats.sum / (trials : ℚ) / (n : ℚ) ∧
    (trials = 1 → sigmaPerEvent stats trials n = 0) ∧
    (1 < trials → sigmaPerEvent stats trials n =
      Real.sqrt ((trials : ℝ) / ((trials : ℝ) - 1) *
        ((((stats.map (fun x => x * x)).sum / (trials : ℚ) : ℚ) : ℝ) -
          ((stats.sum / (trials : ℚ) : ℚ) : ℝ) *
            ((stats.sum / (trials : ℚ) : ℚ) : ℝ))) / (n : ℝ)) := by
  refine ⟨by rw [meanPerEvent, accumTotal_eq_sum], ?_, ?_⟩
  · intro h1
    simp [sigmaPerEvent, sigmaCode, h1]
  · intro h1
    rw [sigmaPerEvent, sigmaCode, if_pos h1, accumTotal_eq_sum, accumTotal2_eq]

/-- C1 witness: the mean formula at samples 2 and 4 over two trials and one
event. -/
theorem C1_witness :
    meanPerEvent [(2 : ℚ), 4] 2 1 =
      ([(2 : ℚ), 4]).sum / ((2 : Int) : ℚ) / ((1 : ℕ) : ℚ) :=
  (C1_aggregate_formulas [2, 4] 2 1 (by norm_num) (by norm_num)
    (by norm_num)).1

/-- Finder configuration with only --ptmin set, one trial, defaults
otherwise, one positional argument. -/
def optsPtmin : FinderOpts :=
  ⟨false, -1, 0, 1, "Best", -1, "", 2 / 5, some 5, none, none, none, false, 1⟩

/-- Finder configuration with both --ptmin and --njets set and the help
option also requested. -/
def optsHelpConflict : FinderOpts :=
  ⟨true, -1, 0, 1, "Best", -1, "", 2 / 5, some 1, none, some 2, none, false, 1⟩

/-- Finder configuration with both --ptmin and --njets set, help not
requested. -/
def optsConflict : FinderOpts :=
  ⟨false, -1, 0, 1, "Best", -1, "", 2 / 5, some 1, none, some 2, none, false, 1⟩

/-- Finder configuration asking for help with an otherwise valid selection. -/
def optsHelp : FinderOpts :=
  ⟨true, -1, 0, 1, "Best", -1, "", 2 / 5, some 5, none, none, none, false, 1⟩

/-- Finder configuration with a valid selection but no positional argument:
the input-file argument is missing. -/
def optsNoFile : FinderOpts :=
  ⟨false, -1, 0, 1, "Best", -1, "", 2 / 5, some 5, none, none, none, false, 0⟩

/-- Inclusive configuration asking for help. -/
def inclOptsHelp : InclusiveOpts :=
  ⟨true, -1, 8, "Best", -1, 2 / 5, 1 / 2, false, 1⟩

/-- Inclusive configuration with dumping enabled and two trials. -/
def inclOptsDump : InclusiveOpts :=
  ⟨false, -1, 2, "Best", -1, 2 / 5, 1 / 2, true, 1⟩

/-- Finder configuration with dumping and the cluster-sequence debug dump
enabled over two trials. -/
def finderOptsDump : FinderOpts :=
  ⟨false, -1, 0, 2, "Best", -1, "", 2 / 5, some 0, none, none, some "-", true, 1⟩

/-- Finder configuration skipping one event, one trial. -/
def finderOptsSkip : FinderOpts :=
  ⟨false, -1, 1, 1, "Best", -1, "", 2 / 5, some 0, none, none, none, false, 1⟩

/-- Finder configuration with zero trials and only --ptmin set. -/
def finderOptsZeroTrials : FinderOpts :=
  ⟨false, -1, 0, 0, "Best", -1, "", 2 / 5, some 5, none, none, none, false, 1⟩

/-- C2 counterexample: a run over a source that decodes no events (event
count 0) completes with exit code 0 and produces statistics — the divisions
by the zero event count are performed (value 0 in this rational embedding,
inf and nan in the C++ doubles); nothing fails, while the spec's aggregate
contract demands an EmptyEventSetError here. -/
theorem C2_counterexample :
    (finderMain optsPtmin [] (fun _ => 5)).exitCode = 0 ∧
    (finderMain optsPtmin [] (fun _ => 5)).stats = some ⟨0, 0, 0⟩ ∧
    aggregateSpec [5] 1 0 = Except.error AggError.emptyEventSet := by
  refine ⟨?_, ?_, by norm_num [aggregateSpec]⟩ <;>
    norm_num [finderMain, optsPtmin, selectionCount, finderResolveAlg,
      read_input_events, readAux, eventIndices, meanPerEvent, lowestPerEvent,
      sigmaPerEvent, sigmaCode, accumTotal, accumLowest, sentinel]

/-- C2 amended: with event count 0 the statistics stage is not rejected: any
run that reaches it completes with exit code 0 and reports the divisions of
the accumulated totals by the zero event count (total divisions in this
rational embedding; the C++ doubles silently give inf or nan). -/
theorem C2_zero_events_division_not_rejected (o : FinderOpts)
    (src : List RawEvent) (elapsed : ℕ → ℚ)
    (hh : o.help = false) (hs : selectionCount o = 1)
    (a : JetAlgorithm × ℚ) (ha : finderResolveAlg o.alg o.power = some a)
    (hn : (read_input_events src o.maxevents).events.length = 0) :
    (finderMain o src elapsed).exitCode = 0 ∧
    (finderMain o src elapsed).stats =
      some ⟨accumTotal ((List.range o.trials.toNat).map elapsed) /
              (o.trials : ℚ) / 0,
            sigmaCode ((List.range o.trials.toNat).map elapsed) o.trials / 0,
            accumLowest ((List.range o.trials.toNat).map elapsed) / 0⟩ := by
  rw [finderMain_success o src elapsed hh hs a ha]
  refine ⟨rfl, ?_⟩
  simp [meanPerEvent, sigmaPerEvent, lowestPerEvent, hn]

/-- C2 amended witness: the amended theorem at the concrete ptmin-only
configuration over an empty source with one trial of 5 microseconds. -/
theorem C2_witness :
    (finderMain optsPtmin [] (fun _ => 5)).exitCode = 0 ∧
    (finderMain optsPtmin [] (fun _ => 5)).stats =
      some ⟨accumTotal ((List.range (1 : Int).toNat).map (fun _ => (5 : ℚ))) /
              ((1 : Int) : ℚ) / 0,
            sigmaCode ((List.range (1 : Int).toNat).map (fun _ => (5 : ℚ)))
              (1 : Int) / 0,
            accumLowest ((List.range (1 : Int).toNat).map (fun _ => (5 : ℚ))) /
              0⟩ :=
  C2_zero_events_division_not_rejected optsPtmin [] (fun _ => 5) rfl
    (by norm_num [selectionCount, optsPtmin])
    (JetAlgorithm.antikt, -1) (by norm_num [finderResolveAlg, optsPtmin])
    (by norm_num [read_input_events, readAux, optsPtmin])

/-- C3 counterexample: with the help option requested alongside both --ptmin
and --njets (selection count 2), the finder exits with code 0, not a non-zero
code. -/
theorem C3_counterexample :
    selectionCount optsHelpConflict = 2 ∧
    (finderMain optsHelpConflict [] (fun _ => 0)).exitCode = 0 ∧
    (finderMain optsHelpConflict [] (fun _ => 0)).eventsRead = 0 := by
  refine ⟨?_, ?_, ?_⟩ <;>
    norm_num [selectionCount, optsHelpConflict, finderMain]

/-- C3 amended: when the help option is not requested, a selection-flag count
other than exactly one makes the finder exit with the non-zero code 1 with
zero events read and nothing clustered; a count of exactly one passes the
check and the source is read. -/
theorem C3_selection_flag_check (o : FinderOpts) (src : List RawEvent)
    (elapsed : ℕ → ℚ) (hh : o.help = false) :
    (selectionCount o ≠ 1 →
      (finderMain o src elapsed).exitCode = 1 ∧
      (finderMain o src elapsed).eventsRead = 0 ∧
      (finderMain o src elapsed).clustered = []) ∧
    (selectionCount o = 1 →
      (finderMain o src elapsed).eventsRead =
        (read_input_events src o.maxevents).parsed) := by
  constructor
  · intro hs
    refine ⟨?_, ?_, ?_⟩ <;> simp [finderMain, hh, hs]
  · intro hs
    rcases h : finderResolveAlg o.alg o.power with _ | a
    · simp [finderMain, hh, hs, h]
    · rw [finderMain_success o src elapsed hh hs a h]

/-- C3 witness: the amended theorem at a conflicting configuration (both
--ptmin and --njets, no help) and at the valid ptmin-only configuration. -/
theorem C3_witness :
    ((finderMain optsConflict [] (fun _ => 0)).exitCode = 1 ∧
      (finderMain optsConflict [] (fun _ => 0)).eventsRead = 0 ∧
      (finderMain optsConflict [] (fun _ => 0)).clustered = []) ∧
    (finderMain optsPtmin [] (fun _ => 0)).eventsRead =
      (read_input_events [] optsPtmin.maxevents).parsed :=
  ⟨(C3_selection_flag_check optsConflict [] (fun _ => 0) rfl).1
      (by norm_num [selectionCount, optsConflict]),
    (C3_selection_flag_check optsPtmin [] (fun _ => 0) rfl).2
      (by norm_num [selectionCount, optsPtmin])⟩

/-- C4 counterexample: displaying help makes the finder exit with code 0
(EXIT_SUCCESS), although the claim requires a non-zero exit code on help
display and code 0 only on success; and a finder invocation with no
input-file argument (nArgs = 0) and an otherwise valid configuration also
exits with code 0 instead of the claimed non-zero code for a missing input
file. -/
theorem C4_counterexample :
    (optsHelp.help = true ∧
      (finderMain optsHelp [] (fun _ => 0)).exitCode = 0) ∧
    (optsNoFile.nArgs = 0 ∧ optsNoFile.help = false ∧
      (finderMain optsNoFile [] (fun _ => 0)).exitCode = 0) := by
  refine ⟨⟨rfl, ?_⟩, rfl, rfl, ?_⟩ <;>
    norm_num [finderMain, optsHelp, optsNoFile, selectionCount,
      finderResolveAlg, read_input_events, readAux]

/-- C4 amended: the finder exits 0 on help display; it exits 1 when the
selection-flag count is not one and on an unknown algorithm name; when those
checks pass it completes with exit code 0 regardless of the number of
positional arguments, so a missing input-file argument does not cause a
non-zero exit there.  The inclusive variant exits -1 on help, 1 on a missing
input file or extra arguments, and 0 on success (exactly one positional
argument, help absent). -/
theorem C4_exit_code_map (o : FinderOpts) (oi : InclusiveOpts)
    (src : List RawEvent) (elapsed : ℕ → ℚ) :
    (o.help = true → (finderMain o src elapsed).exitCode = 0) ∧
    (o.help = false → selectionCount o ≠ 1 →
      (finderMain o src elapsed).exitCode = 1) ∧
    (o.help = false → selectionCount o = 1 →
      finderResolveAlg o.alg o.power = none →
      (finderMain o src elapsed).exitCode = 1) ∧
    (∀ a, o.help = false → selectionCount o = 1 →
      finderResolveAlg o.alg o.power = some a →
      (finderMain o src elapsed).exitCode = 0) ∧
    (oi.help = true → (inclusiveMain oi src elapsed).exitCode = -1) ∧
    (oi.help = false → oi.nArgs = 0 →
      (inclusiveMain oi src elapsed).exitCode = 1) ∧
    (oi.help = false → 1 < oi.nArgs →
      (inclusiveMain oi src elapsed).exitCode = 1) ∧
    (oi.help = false → oi.nArgs = 1 →
      (inclusiveMain oi src elapsed).exitCode = 0) := by
  refine ⟨?_, ?_, ?_, ?_, ?_, ?_, ?_, ?_⟩
  · intro hh
    simp [finderMain, hh]
  · intro hh hs
    simp [finderMain, hh, hs]
  · intro hh hs ha
    simp [finderMain, hh, hs, ha]
  · intro a hh hs ha
    rw [finderMain_success o src elapsed hh hs a ha]
  · intro hh
    simp [inclusiveMain, hh]
  · intro hh hn
    simp [inclusiveMain, hh, hn]
  · intro hh hn
    have hne : oi.nArgs ≠ 0 := by omega
    simp [inclusiveMain, hh, hne, hn]
  · intro hh hn
    simp [inclusiveMain, hh, hn]

/-- C4 witness: the finder help exit code, the inclusive help exit code and
the inclusive success exit code at concrete configurations. -/
theorem C4_witness :
    (finderMain optsHelp [] (fun _ => 0)).exitCode = 0 ∧
    (inclusiveMain inclOptsHelp [] (fun _ => 0)).exitCode = -1 ∧
    (inclusiveMain inclOptsDump [] (fun _ => 0)).exitCode = 0 :=
  ⟨(C4_exit_code_map optsHelp inclOptsHelp [] (fun _ => 0)).1 rfl,
    (C4_exit_code_map optsHelp inclOptsHelp [] (fun _ => 0)).2.2.2.2.1 rfl,
    (C4_exit_code_map optsHelp inclOptsDump [] (fun _ => 0)).2.2.2.2.2.2.2 rfl
      rfl⟩

/-- C5 counterexample: the inclusive variant with dumping enabled and two
trials over a one-event source writes a dump record for the event on trial 0
and again on trial 1 — a dump on a trial index greater than 0. -/
theorem C5_counterexample :
    (inclusiveMain inclOptsDump [[pStable]] (fun _ => 0)).dumped =
      [(0, 0), (1, 0)] ∧
    (1, 0) ∈ (inclusiveMain inclOptsDump [[pStable]] (fun _ => 0)).dumped := by
  have h : (inclusiveMain inclOptsDump [[pStable]] (fun _ => 0)).dumped =
      [(0, 0), (1, 0)] := by decide
  exact ⟨h, by rw [h]; simp⟩

/-- C5 amended: in the finder every dump-sink record (jet dump and
cluster-sequence history dump alike) belongs to trial 0; in the inclusive
variant with dumping enabled every clustered (trial, event) pair is dumped,
on every trial. -/
theorem C5_dump_trial_policy (o : FinderOpts) (oi : InclusiveOpts)
    (src : List RawEvent) (elapsed : ℕ → ℚ) :
    (∀ t i, (t, i) ∈ (finderMain o src elapsed).dumped → t = 0) ∧
    (∀ t i, (t, i) ∈ (finderMain o src elapsed).historyDumped → t = 0) ∧
    (oi.dumpFlag = true →
      (inclusiveMain oi src elapsed).dumped =
        (inclusiveMain oi src elapsed).clustered) := by
  refine ⟨?_, ?_, ?_⟩
  · intro t i hm
    by_cases hh : o.help = true
    · simp [finderMain, hh] at hm
    · rw [Bool.not_eq_true] at hh
      by_cases hs : selectionCount o = 1
      · rcases hA : finderResolveAlg o.alg o.power with _ | a
        · simp [finderMain, hh, hs, hA] at hm
        · rw [finderMain_success o src elapsed hh hs a hA] at hm
          simp only [List.mem_flatMap] at hm
          obtain ⟨t', _, hmem⟩ := hm
          by_cases hc : (o.dumpOpt.isSome && t' == 0) = true
          · rw [if_pos hc] at hmem
            simp only [List.mem_map, Prod.mk.injEq] at hmem
            obtain ⟨i', _, het, _⟩ := hmem
            have ht0 : t' = 0 := by
              have := (Bool.and_eq_true _ _).mp hc
              simpa using this.2
            omega
          · rw [if_neg hc] at hmem
            simp at hmem
      · simp [finderMain, hh, hs] at hm
  · intro t i hm
    by_cases hh : o.help = true
    · simp [finderMain, hh] at hm
    · rw [Bool.not_eq_true] at hh
      by_cases hs : selectionCount o = 1
      · rcases hA : finderResolveAlg o.alg o.power with _ | a
        · simp [finderMain, hh, hs, hA] at hm
        · rw [finderMain_success o src elapsed hh hs a hA] at hm
          simp only [List.mem_flatMap] at hm
          obtain ⟨t', _, hmem⟩ := hm
          by_cases hc : (o.dumpOpt.isSome && t' == 0 && o.debugClusterseq) = true
          · rw [if_pos hc] at hmem
            simp only [List.mem_map, Prod.mk.injEq] at hmem
            obtain ⟨i', _, het, _⟩ := hmem
            have ht0 : t' = 0 := by
              have h1 := (Bool.and_eq_true _ _).mp hc
              have h2 := (Bool.and_eq_true _ _).mp h1.1
              simpa using h2.2
            omega
          · rw [if_neg hc] at hmem
            simp at hmem
      · simp [finderMain, hh, hs] at hm
  · intro hd
    by_cases hh : oi.help = true
    · simp [inclusiveMain, hh]
    · rw [Bool.not_eq_true] at hh
      by_cases h0 : oi.nArgs = 0
      · simp [inclusiveMain, hh, h0]
      · by_cases h1 : 1 < oi.nArgs
        · simp [inclusiveMain, hh, h0, h1]
        · simp [inclusiveMain, hh, h0, h1, hd]

/-- C5 witness: the finder part applied to a concrete dumped record and the
inclusive part applied with dumping enabled. -/
theorem C5_witness :
    (0 : ℕ) = 0 ∧
    (inclusiveMain inclOptsDump [[pStable]] (fun _ => 0)).dumped =
      (inclusiveMain inclOptsDump [[pStable]] (fun _ => 0)).clustered := by
  have hdump : (finderMain finderOptsDump [[pStable]] (fun _ => 0)).dumped =
      [(0, 0)] := by
    rw [finderMain_success finderOptsDump [[pStable]] (fun _ => 0) rfl
      (by norm_num [selectionCount, finderOptsDump])
      (JetAlgorithm.antikt, -1)
      (by norm_num [finderResolveAlg, finderOptsDump])]
    norm_num [eventIndices, read_input_events, readAux, toPseudoJets,
      pStable, finderOptsDump, List.range_succ, List.flatMap_cons,
      List.flatMap_nil]
    decide
  have hmem : (0, 0) ∈ (finderMain finderOptsDump [[pStable]]
      (fun _ => 0)).dumped := by
    rw [hdump]
    simp
  exact ⟨(C5_dump_trial_policy finderOptsDump inclOptsDump [[pStable]]
        (fun _ => 0)).1 0 0 hmem,
    (C5_dump_trial_policy finderOptsDump inclOptsDump [[pStable]]
        (fun _ => 0)).2.2 rfl⟩

/-- C6: in any finder run that reaches the trial loop, each trial clusters
exactly the events with indices skipevents, skipevents + 1, ..., n - 1 in
original order (n the full loaded event count) while the reported mean,
sigma and lowest statistics are all divided by the full n, not by
n - skipevents. -/
theorem C6_skip_and_normalization (o : FinderOpts) (src : List RawEvent)
    (elapsed : ℕ → ℚ) (hh : o.help = false) (hs : selectionCount o = 1)
    (a : JetAlgorithm × ℚ) (ha : finderResolveAlg o.alg o.power = some a) :
    (finderMain o src elapsed).clustered =
      (List.range o.trials.toNat).flatMap (fun t =>
        (List.range' o.skipevents
          ((read_input_events src o.maxevents).events.length -
            o.skipevents)).map (fun i => (t, i))) ∧
    (finderMain o src elapsed).stats =
      some ⟨((List.range o.trials.toNat).map elapsed).sum / (o.trials : ℚ) /
              ((read_input_events src o.maxevents).events.length : ℚ),
            sigmaCode ((List.range o.trials.toNat).map elapsed) o.trials /
              ((read_input_events src o.maxevents).events.length : ℝ),
            accumLowest ((List.range o.trials.toNat).map elapsed) /
              ((read_input_events src o.maxevents).events.length : ℚ)⟩ := by
  rw [finderMain_success o src elapsed hh hs a ha]
  constructor
  · simp [eventIndices_eq_range']
  · simp [meanPerEvent, accumTotal_eq_sum, sigmaPerEvent, lowestPerEvent]

/-- C6 witness: a one-trial run skipping one of two loaded events clusters
only event index 1 yet normalizes by the full event count 2 (sigma is 0 for
a single trial). -/
theorem C6_witness :
    (finderMain finderOptsSkip [[pStable], [pStable]] (fun _ => 3)).clustered =
      [(0, 1)] ∧
    (finderMain finderOptsSkip [[pStable], [pStable]] (fun _ => 3)).stats =
      some ⟨3 / 2, 0, 3 / 2⟩ := by
  have h := C6_skip_and_normalization finderOptsSkip [[pStable], [pStable]]
    (fun _ => 3) rfl (by norm_num [selectionCount, finderOptsSkip])
    (JetAlgorithm.antikt, -1)
    (by norm_num [finderResolveAlg, finderOptsSkip])
  rw [h.1, h.2]
  constructor
  · decide
  · norm_num [finderOptsSkip, read_input_events, readAux, toPseudoJets,
      pStable, accumLowest, sentinel, sigmaCode, List.range_succ,
      List.range_zero, List.flatMap_cons, List.flatMap_nil]

/-- C9: a finder run with trials = 0 that reaches the trial loop executes no
iteration (nothing clustered, nothing dumped), is not rejected by any guard
(it completes with exit code 0), and its statistics stage still divides the
untouched accumulators by the zero trial count and by the event count: the
reported minimum is the untouched sentinel 1.0e20 divided by the event count,
and the mean is the division of 0 by the zero trial count (total in this
rational embedding; nan in the C++ doubles). -/
theorem C9_zero_trials_unguarded (o : FinderOpts) (src : List RawEvent)
    (elapsed : ℕ → ℚ) (hh : o.help = false) (hs : selectionCount o = 1)
    (a : JetAlgorithm × ℚ) (ha : finderResolveAlg o.alg o.power = some a)
    (ht : o.trials = 0) :
    (finderMain o src elapsed).clustered = [] ∧
    (finderMain o src elapsed).dumped = [] ∧
    (finderMain o src elapsed).exitCode = 0 ∧
    (finderMain o src elapsed).stats =
      some ⟨(0 : ℚ) / ((0 : Int) : ℚ) /
              ((read_input_events src o.maxevents).events.length : ℚ),
            0,
            sentinel /
              ((read_input_events src o.maxevents).events.length : ℚ)⟩ := by
  rw [finderMain_success o src elapsed hh hs a ha]
  refine ⟨by simp [ht], by simp [ht], rfl, ?_⟩
  simp [ht, meanPerEvent, sigmaPerEvent, sigmaCode, lowestPerEvent,
    accumTotal, accumLowest]

/-- C9 witness: the zero-trials run over a one-event source reports the
sentinel divided by the event count and completes with exit code 0. -/
theorem C9_witness :
    (finderMain finderOptsZeroTrials [[pStable]] (fun _ => 7)).clustered = [] ∧
    (finderMain finderOptsZeroTrials [[pStable]] (fun _ => 7)).dumped = [] ∧
    (finderMain finderOptsZeroTrials [[pStable]] (fun _ => 7)).exitCode = 0 ∧
    (finderMain finderOptsZeroTrials [[pStable]] (fun _ => 7)).stats =
      some ⟨(0 : ℚ) / ((0 : Int) : ℚ) /
              ((read_input_events [[pStable]]
                  finderOptsZeroTrials.maxevents).events.length : ℚ),
            0,
            sentinel /
              ((read_input_events [[pStable]]
                  finderOptsZeroTrials.maxevents).events.length : ℚ)⟩ :=
  C9_zero_trials_unguarded finderOptsZeroTrials [[pStable]] (fun _ => 7) rfl
    (by norm_num [selectionCount, finderOptsZeroTrials])
    (JetAlgorithm.antikt, -1)
    (by norm_num [finderResolveAlg, finderOptsZeroTrials]) rfl

end JetBench
